import Mathlib

/-!
Navigation state machine of the terminal CV browser (`main.go`)

A shallow embedding of the bubbletea model of `main.go` and the properties of its
`Update` function.

Modelling decisions.

* Go values of type `func() component` are closures.  The program builds finitely many
  shapes of them, so they are represented by closure codes (`Producer`) together with
  the function `Producer.call` that runs a code.  A code that captures a variable
  (`func() component { return TekvortexExperienceComponent(expComp) }`) carries the
  captured value.  This keeps the cyclic menu graph of the program representable and
  gives decidable equality on items and components.
* `list.Model` belongs to the bubbles library.  Only what `main.go` reads or writes is
  kept: the items, the title, the index of the selected row (`Index()`, set by
  `Select`), and the size.  The library's own `Update` is a parameter `lu` of the
  embedding of `model.Update`; theorems hold for every `lu`, and each assumption on the
  library that a theorem needs is an explicit hypothesis.
* `list.Item` is an interface; `item` is its only implementation in the program, so the
  list holds values of type `item` and the type assertion `selectedItem.(item)` of
  `Update` always succeeds.
* `tea.Msg` is represented by the three shapes `Update` distinguishes; a key message is
  represented by the value of `msg.String()`, the only thing `Update` looks at.
* `len(i.desc)` is a byte length: `String.utf8ByteSize`.  Widths are Go `int`s far from
  the 64-bit limits (terminal sizes), modelled by `Int`.
-/

namespace TuiCV

/-! ## Data model -/

/-- Closure codes for the values of type `func() component` built by the program. -/
inductive Producer where
  /-- `func() component { return component{} }` of `SetRootItem` and `SetLeafItem` -/
  | placeholder
  | initialComponent
  | IntroComponent
  | SkillsComponent
  | ExperienceComponent
  /-- `func() component { return TekvortexExperienceComponent(expComp) }` -/
  | TekvortexExperience (parentComponent : Producer)
  /-- `func() component { return RippeyAIExperienceComponent(expComp) }` -/
  | RippeyAIExperience (parentComponent : Producer)
  /-- `func() component { return LancemeUpExperienceComponent(expComp) }` -/
  | LancemeUpExperience (parentComponent : Producer)
  | ProjectsComponent
  /-- `func() component { return ShareExcelProjectComponent(projComp) }` -/
  | ShareExcelProject (parentComponent : Producer)
  /-- `func() component { return GradeLedgerProjectComponent(projComp) }` -/
  | GradeLedgerProject (parentComponent : Producer)
  | EducationComponent
  | LanguagesComponent
  deriving DecidableEq

/-- Go `type item struct`. -/
structure item where
  name : String
  desc : String
  nested_component : Producer
  prev_component : Producer
  deriving DecidableEq

/-- Go `type component struct`. -/
structure component where
  list_items : List item
  title : String
  deriving DecidableEq

/-- Go `defaultStruct`, the zero value `component{}`. -/
def defaultStruct : component := { list_items := [], title := "" }

/-- Go `SetItem`. -/
def SetItem (name desc : String) (nested_component prev_component : Producer) : item :=
  { name := name, desc := desc, nested_component := nested_component,
    prev_component := prev_component }

/-- Go `SetRootItem`: an item that leads to a nested menu. -/
def SetRootItem (name desc : String) (nested_component : Producer) : item :=
  { name := name, desc := desc, nested_component := nested_component,
    prev_component := Producer.placeholder }

/-- Go `SetLeafItem`: an item that only displays information. -/
def SetLeafItem (name desc : String) (prev_component : Producer) : item :=
  { name := name, desc := desc, prev_component := prev_component,
    nested_component := Producer.placeholder }

/-- Go `item.Title`. -/
def item.Title (i : item) : String := i.name

/-- Go `item.Description`. -/
def item.Description (i : item) : String := i.desc

/-- Go `item.FilterValue`. -/
def item.FilterValue (i : item) : String := i.name

/-! ## The content -/

/-- Go `initialComponent`. -/
def initialComponent : component :=
  { list_items := [
      SetRootItem "Introduction" "Basic Information and Contact" Producer.IntroComponent,
      SetRootItem "Skills" "Technical and Non-Technical Proficiencies" Producer.SkillsComponent,
      SetRootItem "Experience" "Details of Professional Experience" Producer.ExperienceComponent,
      SetRootItem "Projects" "Details of Self-Employed Projects" Producer.ProjectsComponent,
      SetRootItem "Education" "Academic Background" Producer.EducationComponent,
      SetRootItem "Languages" "Language Proficiencies" Producer.LanguagesComponent ],
    title := "Bhuwan Panta\x27s CV" }

/-- Go `IntroComponent`. -/
def IntroComponent : component :=
  let initial := Producer.initialComponent
  { list_items := [
      SetLeafItem "Contact" "Email: ricky.pantha@gmail.com | Phone: +977-9844718578 | Location: Lalitpur, Nepal" initial,
      SetLeafItem "Summary" "Results-driven and solution-oriented Software Engineer adept at analyzing and developing software to achieve scalable solutions. Skilled in fostering collaboration, optimizing services, and delivering projects on time and within scope." initial,
      SetLeafItem "LinkedIn" "linkedin.com/in/bhuwan-panta" initial,
      SetLeafItem "Github" "github.com/bhuwan-panta" initial ],
    title := "Introduction" }

/-- Go `SkillsComponent`. -/
def SkillsComponent : component :=
  let initial := Producer.initialComponent
  { list_items := [
      SetLeafItem "Programming Languages" "Python, Go, JavaScript" initial,
      SetLeafItem "Frameworks" "FastAPI, Flask, Django, Node (Runtime), Express" initial,
      SetLeafItem "Databases" "MongoDB, MySQL, PostgreSQL" initial,
      SetLeafItem "Cloud Services" "AWS (S3, Lambda)" initial,
      SetLeafItem "Search Technologies" "Vector Search, Elasticsearch, Fuzzy Search" initial,
      SetLeafItem "Other (Technical)" "REST API, OPA, Rego, SOAP XML, Docker, Kubernetes, RabbitMQ, Microservices" initial,
      SetLeafItem "Other (Non-Technical)" "Client Communication, Product Initiatives, Leadership" initial ],
    title := "Skills" }

/-- Go `ExperienceComponent`. -/
def ExperienceComponent : component :=
  let expComp := Producer.ExperienceComponent
  { list_items := [
      SetRootItem "Software Engineer, Tekvortex" "Bhaktapur, Nepal | Jan 2021 – Jan 2022" (Producer.TekvortexExperience expComp),
      SetRootItem "Software Engineer, RippeyAI" "Louisville, CO | Aug 2022 – Jul 2024" (Producer.RippeyAIExperience expComp),
      SetRootItem "Software Engineer, LancemeUp" "Lalitpur, Nepal | Feb 2022 – Jul 2022" (Producer.LancemeUpExperience expComp) ],
    title := "Experience" }

/-- Go `RippeyAIExperienceComponent`. -/
def RippeyAIExperienceComponent (parentComponent : Producer) : component :=
  { list_items := [
      SetLeafItem "Deployment Free API Integration" "Implemented Domain-Driven Design; onboarded 10 customers/8 carriers; consolidated microservices (20% cost reduction); reduced onboarding time by 60%." parentComponent,
      SetLeafItem "Microsoft Teams Integration" "Constructed seamless MS Teams integration for chatbots; reduced customer onboarding to 30 mins; implemented real-time failover (50% response time reduction)." parentComponent,
      SetLeafItem "Enhanced Email Parsing Service" "Improved email parsing for foreign characters (5% data integrity); increased efficiency for diverse attachments (15%); increased overall accuracy by 20%." parentComponent,
      SetLeafItem "Developed Internal Tools" "Enhanced accuracy for date/currency formats (10% error reduction); created Universal Unit Conversion tool (~35% processing speed increase); developed vector search for charge codes (30% search accuracy); automated Excel ops (80% time reduction)." parentComponent,
      SetLeafItem "Built Customizable Rate Engine" "Analyzed libraries (15% dependency cost reduction); engineered Rate Engine (40% config time reduction); collaborated with CTO (20% timeline reduction); participated in meetings (30% project success rate)." parentComponent ],
    title := "RippeyAI - Software Engineer" }

/-- Go `LancemeUpExperienceComponent`. -/
def LancemeUpExperienceComponent (parentComponent : Producer) : component :=
  { list_items := [
      SetLeafItem "Enhanced Legacy Project" "Maintained backend for Medisoft independently; understood codebase quickly (50% transition time reduction); interacted with clients (25% client satisfaction increase)." parentComponent ],
    title := "LancemeUp - Software Engineer" }

/-- Go `TekvortexExperienceComponent`. -/
def TekvortexExperienceComponent (parentComponent : Producer) : component :=
  { list_items := [
      SetRootItem "MITM Proxy" "Working on BAF(Build Application Firewall) Product" parentComponent ],
    title := "Tekvortex - Software Engineer" }

/-- Go `ProjectsComponent`. -/
def ProjectsComponent : component :=
  let projComp := Producer.ProjectsComponent
  { list_items := [
      SetRootItem "Share Excel" "Nawalparasi, Nepal | Feb 2020 - Apr 2021" (Producer.ShareExcelProject projComp),
      SetRootItem "Automatic Grade Ledger Application" "Nawalparasi, Nepal | Feb 2020 - Apr 2021" (Producer.GradeLedgerProject projComp) ],
    title := "Solopreneur Projects" }

/-- Go `ShareExcelProjectComponent`. -/
def ShareExcelProjectComponent (parentComponent : Producer) : component :=
  { list_items := [
      SetLeafItem "Description" "Developed stock portfolio management using Excel/VBA for ~100 users." parentComponent,
      SetLeafItem "Features" "Live portfolio tracking, watchlist, interactive dashboards, near real-time stock prices (40% user engagement)." parentComponent,
      SetLeafItem "Methodology" "Applied Agile; continuously improved based on feedback (1000% product value increase)." parentComponent ],
    title := "Share Excel Project" }

/-- Go `GradeLedgerProjectComponent`. -/
def GradeLedgerProjectComponent (parentComponent : Producer) : component :=
  { list_items := [
      SetLeafItem "Description" "Developed an application to assist teachers in publishing results from home during COVID (benefited over 10 teachers)." parentComponent,
      SetLeafItem "Extended Scope" "Built comprehensive School Management Application (admission, accounting, result management); decreased application usage by 60% (likely meant increased efficiency/reduced manual work)." parentComponent ],
    title := "Automatic Grade Ledger Application" }

/-- Go `EducationComponent`. -/
def EducationComponent : component :=
  let initial := Producer.initialComponent
  { list_items := [
      SetLeafItem "Bachelor of Computer Science and Information Technology" "Bhaktapur Multiple Campus, Bhaktapur, Nepal | Apr 2021 – Apr 2025" initial,
      SetLeafItem "Science / Physics" "Tilottama Higher Secondary School, Butwal, Nepal | Aug 2018 – Sept 2020" initial ],
    title := "Education" }

/-- Go `LanguagesComponent`. -/
def LanguagesComponent : component :=
  let initial := Producer.initialComponent
  { list_items := [
      SetLeafItem "Nepali" "Native" initial,
      SetLeafItem "English" "Advanced" initial,
      SetLeafItem "Hindi" "Conversational" initial,
      SetLeafItem "German" "Basic" initial ],
    title := "Languages" }

/-- Calling a closure: `f()` for `f` of type `func() component`. -/
def Producer.call : Producer → component
  | .placeholder => { list_items := [], title := "" }
  | .initialComponent => TuiCV.initialComponent
  | .IntroComponent => TuiCV.IntroComponent
  | .SkillsComponent => TuiCV.SkillsComponent
  | .ExperienceComponent => TuiCV.ExperienceComponent
  | .TekvortexExperience expComp => TekvortexExperienceComponent expComp
  | .RippeyAIExperience expComp => RippeyAIExperienceComponent expComp
  | .LancemeUpExperience expComp => LancemeUpExperienceComponent expComp
  | .ProjectsComponent => TuiCV.ProjectsComponent
  | .ShareExcelProject projComp => ShareExcelProjectComponent projComp
  | .GradeLedgerProject projComp => GradeLedgerProjectComponent projComp
  | .EducationComponent => TuiCV.EducationComponent
  | .LanguagesComponent => TuiCV.LanguagesComponent

/-! ## The list widget, messages and commands -/

namespace list

/-- The part of the bubbles `list.Model` that `main.go` reads or writes: `Items()`,
the field `Title`, `Index()`, `Width()` and `Height()`. -/
structure Model where
  items : List item
  Title : String
  index : Nat
  width : Int
  height : Int
  deriving DecidableEq

/-- Library `list.New(items, delegate, width, height)`: the first row is selected and
the title is the library default, which `main` overwrites. -/
def New (items : List item) (width height : Int) : Model :=
  { items := items, Title := "List", index := 0, width := width, height := height }

/-- Library `Items()`. -/
def Model.Items (l : Model) : List item := l.items

/-- Library `Width()`. -/
def Model.Width (l : Model) : Int := l.width

/-- Library `Index()`. -/
def Model.Index (l : Model) : Nat := l.index

/-- Library `SelectedItem()`: the item at `Index()`, or `nil` (here `none`) when the
index is not a position of the list. -/
def Model.SelectedItem (l : Model) : Option item := l.items.get? l.index

/-- Library `SetItems`. -/
def Model.SetItems (l : Model) (items : List item) : Model := { l with items := items }

/-- Library `Select`: afterwards `Index()` is the given index. -/
def Model.Select (l : Model) (index : Nat) : Model := { l with index := index }

/-- Library `SetSize`. -/
def Model.SetSize (l : Model) (width height : Int) : Model :=
  { l with width := width, height := height }

end list

/-- The shapes of `tea.Msg` that `Update` distinguishes.  A `tea.KeyMsg` is given by
the value of its `String()`. -/
inductive Msg where
  | WindowSizeMsg (Width Height : Int)
  | KeyMsg (value : String)
  | other (tag : Nat)
  deriving DecidableEq

/-- Go `tea.Cmd` as far as the program is concerned: `nil`, `tea.Quit`, or some other
command returned by the list widget. -/
inductive Cmd where
  | nil
  | Quit
  | other (tag : Nat)
  deriving DecidableEq

/-- Type of the list widget's own `Update`, a parameter of the embedding. -/
abbrev ListUpdate := list.Model → Msg → list.Model × Cmd

/-- Frame size of `docStyle = lipgloss.NewStyle()`: a style without margin, padding or
border has horizontal and vertical frame size zero. -/
def docStyleFrameSize : Int × Int := (0, 0)

/-! ## The model and its `Update` -/

/-- Go `type model struct`. -/
structure model where
  list : list.Model
  currentPath : List component
  large_desc : Bool
  deriving DecidableEq

/-- Go `model.listToComponent`. -/
def model.listToComponent (m : model) : component :=
  { list_items := m.list.Items, title := m.list.Title }

/-- The tail of Go `model.Update` (lines 108-110): the message is handed to the list
widget and the widget's command is returned. -/
def model.forward (lu : ListUpdate) (m : model) (msg : Msg) : model × Cmd :=
  ({ m with list := (lu m.list msg).1 }, (lu m.list msg).2)

/-- Go `model.Update`. -/
def model.Update (lu : ListUpdate) (m : model) (msg : Msg) : model × Cmd :=
  let m := { m with large_desc := false }
  match msg with
  | .WindowSizeMsg Width Height =>
    let (h, v) := docStyleFrameSize
    let m := { m with list := m.list.SetSize (Width - h) (Height - v) }
    m.forward lu msg
  | .KeyMsg value =>
    if value = "ctrl+c" then (m, Cmd.Quit)
    else if value = "enter" then
      match m.list.SelectedItem with
      | none => (m, Cmd.nil)
      | some i =>
        if i.nested_component.call.title ≠ "" then
          let nextComponent := i.nested_component.call
          let m := { m with currentPath := m.currentPath ++ [m.listToComponent] }
          let m := { m with list := m.list.SetItems nextComponent.list_items }
          let m := { m with list := { m.list with Title := nextComponent.title } }
          let m := { m with list := m.list.Select 0 }
          (m, Cmd.nil)
        else if (i.desc.utf8ByteSize : Int) > m.list.Width - 4 then
          ({ m with large_desc := true }, Cmd.nil)
        else m.forward lu msg
    else if value = "esc" then
      match m.currentPath.getLast? with
      | some prevComponent =>
        let m := { m with currentPath := m.currentPath.dropLast }
        let m := { m with list := m.list.SetItems prevComponent.list_items }
        let m := { m with list := { m.list with Title := prevComponent.title } }
        let m := { m with list := m.list.Select 0 }
        (m, Cmd.nil)
      | none => (m, Cmd.Quit)
    else m.forward lu msg
  | .other _ => m.forward lu msg

/-- Rendering functions of lipgloss and of the list widget used by `View`. -/
structure Renderer where
  /-- `docStyle.Render` -/
  docStyle : String → String
  /-- `lipgloss.NewStyle().Bold(true).Underline(true).Render` -/
  titleStyle : String → String
  /-- `lipgloss.NewStyle().Width(w).Render` -/
  descStyle : Int → String → String
  /-- `list.Model.View` -/
  listView : list.Model → String

/-- Go `model.LongDescView`; `none` stands for the panic of the type assertion
`m.list.SelectedItem().(item)` on `nil`. -/
def model.LongDescView (r : Renderer) (m : model) : Option String :=
  match m.list.SelectedItem with
  | none => none
  | some selectedItem =>
    let title := r.titleStyle selectedItem.Title
    let desc := r.descStyle (m.list.Width - 4) selectedItem.Description
    some (r.docStyle (title ++ "\n\n" ++ desc ++ "\n\n↑/k up • ↓/j down • q quit"))

/-- Go `model.View`. -/
def model.View (r : Renderer) (m : model) : Option String :=
  if m.large_desc then m.LongDescView r
  else some (r.docStyle (r.listView m.list))

/-- The model built by Go `main`: the list of the root component with size 0 x 0 and
an empty path. -/
def initialModel : model :=
  let initialComp := initialComponent
  let m : model :=
    { list := list.New initialComp.list_items 0 0, currentPath := [], large_desc := false }
  { m with list := { m.list with Title := initialComp.title } }

/-- Modelled from the spec: the default cursor handling of the list widget
(`list.Model.Update` of the bubbles library, which is not part of the repository):
up and down move the selected row within bounds, `q` asks to quit, every other message
leaves the widget as it is.  It is used to instantiate the parameter `lu`. -/
def listUpdate : ListUpdate := fun l msg =>
  if msg = Msg.KeyMsg "down" ∨ msg = Msg.KeyMsg "j" then
    (if l.index + 1 < l.items.length then { l with index := l.index + 1 } else l, Cmd.nil)
  else if msg = Msg.KeyMsg "up" ∨ msg = Msg.KeyMsg "k" then
    ({ l with index := l.index - 1 }, Cmd.nil)
  else if msg = Msg.KeyMsg "q" then (l, Cmd.Quit)
  else (l, Cmd.nil)

/-- Applying `Update` to a sequence of events, commands ignored. -/
def run (lu : ListUpdate) (m : model) : List Msg → model
  | [] => m
  | msg :: rest => run lu (m.Update lu msg).1 rest

/-! ## Observers used to state the properties -/

/-- Whether the selected item is a branch: `SelectedItem()` is an item whose
`nested_component()` has a non-empty title (the test of `Update`, line 77). -/
def model.branchSelected (m : model) : Bool :=
  match m.list.SelectedItem with
  | some i => decide (i.nested_component.call.title ≠ "")
  | none => false

/-- Number of enter events of the sequence that `Update` applies with a branch
selected, the sequence being applied from `m`. -/
def enterCount (lu : ListUpdate) (m : model) : List Msg → Nat
  | [] => 0
  | msg :: rest =>
    (if msg = Msg.KeyMsg "enter" ∧ m.branchSelected = true then 1 else 0)
      + enterCount lu (m.Update lu msg).1 rest

/-- Number of esc events of the sequence that `Update` applies with a non-empty
`currentPath`, the sequence being applied from `m`. -/
def backCount (lu : ListUpdate) (m : model) : List Msg → Nat
  | [] => 0
  | msg :: rest =>
    (if msg = Msg.KeyMsg "esc" ∧ m.currentPath ≠ [] then 1 else 0)
      + backCount lu (m.Update lu msg).1 rest

/-- The components other than the root that the content can show. -/
def nonRootComponents : List component :=
  [ IntroComponent, SkillsComponent, ExperienceComponent,
    TekvortexExperienceComponent Producer.ExperienceComponent,
    RippeyAIExperienceComponent Producer.ExperienceComponent,
    LancemeUpExperienceComponent Producer.ExperienceComponent,
    ProjectsComponent,
    ShareExcelProjectComponent Producer.ProjectsComponent,
    GradeLedgerProjectComponent Producer.ProjectsComponent,
    EducationComponent, LanguagesComponent ]

/-- Invariant of the navigation stack: either the path is empty and the root is shown,
or the path starts with the root, continues with non-root components, and a non-root
component is shown. -/
def NavInv (m : model) : Prop :=
  (m.currentPath = [] ∧ m.listToComponent = initialComponent) ∨
  (∃ rest, m.currentPath = initialComponent :: rest ∧
    (∀ c ∈ rest, c ∈ nonRootComponents) ∧ m.listToComponent ∈ nonRootComponents)

/-- Components reachable from `initialComponent()` by following the
`nested_component` producers of their items. -/
inductive ReachableComponent : component → Prop where
  | root : ReachableComponent initialComponent
  | nested (c : component) (i : item) : ReachableComponent c → i ∈ c.list_items →
      ReachableComponent i.nested_component.call

/-- Every component of the content, with the empty component that the placeholder
producer returns. -/
def allComponents : List component :=
  defaultStruct :: initialComponent :: nonRootComponents

/-- States of the enter cycle: the list shows "Experience" or
"Tekvortex - Software Engineer" with the cursor on the first row. -/
def inCycle (m : model) : Prop :=
  m.list.index = 0 ∧
    (m.list.items = ExperienceComponent.list_items ∨
      m.list.items = (TekvortexExperienceComponent Producer.ExperienceComponent).list_items)

/-- The leaf "Contact", first item of `IntroComponent()`. -/
def contactItem : item :=
  SetLeafItem "Contact"
    "Email: ricky.pantha@gmail.com | Phone: +977-9844718578 | Location: Lalitpur, Nepal"
    Producer.initialComponent

/-- The state showing "Introduction", reached from the root by enter on
"Introduction", with a list of size `w` x `h`: the cursor is on "Contact". -/
def introState (w h : Int) : model :=
  { list := { items := IntroComponent.list_items, Title := IntroComponent.title,
              index := 0, width := w, height := h },
    currentPath := [initialComponent], large_desc := false }

/-- The state after enter on "Contact" when its description is too long for the row. -/
def contactDetailState (w h : Int) : model :=
  { introState w h with large_desc := true }

/-- The state showing the root list with the cursor on the first row. -/
def rootState (w h : Int) : model :=
  { list := { items := initialComponent.list_items, Title := initialComponent.title,
              index := 0, width := w, height := h },
    currentPath := [], large_desc := false }

/-- A state inside "Introduction" with the cursor on the short leaf "LinkedIn" and a
list 80 columns wide. -/
def linkedInState : model :=
  { list := { items := IntroComponent.list_items, Title := IntroComponent.title,
              index := 2, width := 80, height := 24 },
    currentPath := [initialComponent], large_desc := false }

/-! ## Equations of `Update`, one per path through the source -/

/-- The enter key, written once. -/
abbrev enterKey : Msg := Msg.KeyMsg "enter"

/-- The escape key, written once. -/
abbrev escKey : Msg := Msg.KeyMsg "esc"

theorem Update_enter_none (lu : ListUpdate) (m : model)
    (hsel : m.list.SelectedItem = none) :
    m.Update lu enterKey = ({ m with large_desc := false }, Cmd.nil) := by
  simp [model.Update, hsel]

theorem Update_enter_branch (lu : ListUpdate) (m : model) (i : item)
    (hsel : m.list.SelectedItem = some i) (hbr : i.nested_component.call.title ≠ "") :
    m.Update lu enterKey =
      ({ list := { m.list with items := i.nested_component.call.list_items,
                               Title := i.nested_component.call.title, index := 0 },
         currentPath := m.currentPath ++ [m.listToComponent],
         large_desc := false }, Cmd.nil) := by
  simp [model.Update, hsel, hbr, list.Model.SetItems, list.Model.Select,
    model.listToComponent]

theorem Update_enter_leaf_long (lu : ListUpdate) (m : model) (i : item)
    (hsel : m.list.SelectedItem = some i) (hleaf : i.nested_component.call.title = "")
    (hlong : (i.desc.utf8ByteSize : Int) > m.list.Width - 4) :
    m.Update lu enterKey = ({ m with large_desc := true }, Cmd.nil) := by
  simp [model.Update, hsel, hleaf, hlong]

theorem Update_enter_leaf_short (lu : ListUpdate) (m : model) (i : item)
    (hsel : m.list.SelectedItem = some i) (hleaf : i.nested_component.call.title = "")
    (hshort : (i.desc.utf8ByteSize : Int) ≤ m.list.Width - 4) :
    m.Update lu enterKey =
      ({ m with large_desc := false, list := (lu m.list enterKey).1 },
        (lu m.list enterKey).2) := by
  have h : ¬ (m.list.Width - 4 < (i.desc.utf8ByteSize : Int)) := not_lt.mpr hshort
  simp [model.Update, hsel, hleaf, h, model.forward]

theorem Update_esc_nil (lu : ListUpdate) (m : model) (hpath : m.currentPath = []) :
    m.Update lu escKey = ({ m with large_desc := false }, Cmd.Quit) := by
  simp [model.Update, hpath]

theorem Update_esc_push (lu : ListUpdate) (m : model) (path : List component)
    (prev : component) (hpath : m.currentPath = path ++ [prev]) :
    m.Update lu escKey =
      ({ list := { m.list with items := prev.list_items, Title := prev.title, index := 0 },
         currentPath := path, large_desc := false }, Cmd.nil) := by
  simp [model.Update, hpath, list.Model.SetItems, list.Model.Select]

theorem Update_ctrl_c (lu : ListUpdate) (m : model) :
    m.Update lu (Msg.KeyMsg "ctrl+c") = ({ m with large_desc := false }, Cmd.Quit) := by
  simp [model.Update]

theorem Update_other_key (lu : ListUpdate) (m : model) (value : String)
    (h1 : value ≠ "ctrl+c") (h2 : value ≠ "enter") (h3 : value ≠ "esc") :
    m.Update lu (Msg.KeyMsg value) =
      ({ m with large_desc := false, list := (lu m.list (Msg.KeyMsg value)).1 },
        (lu m.list (Msg.KeyMsg value)).2) := by
  simp [model.Update, h1, h2, h3, model.forward]

theorem Update_WindowSizeMsg (lu : ListUpdate) (m : model) (w h : Int) :
    m.Update lu (Msg.WindowSizeMsg w h) =
      ({ m with large_desc := false,
                list := (lu (m.list.SetSize w h) (Msg.WindowSizeMsg w h)).1 },
        (lu (m.list.SetSize w h) (Msg.WindowSizeMsg w h)).2) := by
  simp [model.Update, model.forward, docStyleFrameSize]

theorem Update_other (lu : ListUpdate) (m : model) (tag : Nat) :
    m.Update lu (Msg.other tag) =
      ({ m with large_desc := false, list := (lu m.list (Msg.other tag)).1 },
        (lu m.list (Msg.other tag)).2) := by
  simp [model.Update, model.forward]


/-! ## Entering a branch and going back -/

/-- C2. When the selected item is a branch, `Update` with the enter key returns a state
whose `currentPath` is the old one with the old current component (old items and old
title) appended last, whose list items and title are those of the item's
`nested_component()`, whose cursor is 0 and whose `large_desc` is false; the command is
`nil`, so it is not the quit command. -/
theorem enter_branch_pushes (lu : ListUpdate) (m : model) (i : item)
    (hsel : m.list.SelectedItem = some i) (hbr : i.nested_component.call.title ≠ "") :
    (m.Update lu enterKey).1.currentPath
        = m.currentPath ++ [{ list_items := m.list.items, title := m.list.Title }] ∧
      (m.Update lu enterKey).1.list.items = i.nested_component.call.list_items ∧
      (m.Update lu enterKey).1.list.Title = i.nested_component.call.title ∧
      (m.Update lu enterKey).1.list.Index = 0 ∧
      (m.Update lu enterKey).1.large_desc = false ∧
      (m.Update lu enterKey).2 = Cmd.nil ∧ (m.Update lu enterKey).2 ≠ Cmd.Quit := by
  rw [Update_enter_branch lu m i hsel hbr]
  simp [model.listToComponent, list.Model.Items, list.Model.Index]

theorem enter_branch_pushes_witness :
    initialModel.list.SelectedItem
        = some (SetRootItem "Introduction" "Basic Information and Contact"
            Producer.IntroComponent) ∧
      (initialModel.Update listUpdate enterKey).1.currentPath = [] ++ [initialComponent] ∧
      (initialModel.Update listUpdate enterKey).1.list.Title = "Introduction" :=
  ⟨rfl,
   (enter_branch_pushes listUpdate initialModel _ rfl (by decide)).1,
   (enter_branch_pushes listUpdate initialModel _ rfl (by decide)).2.2.1⟩

/-- C1. In every state (reachable from the initial model or not) whose selected item is
a branch, the enter key followed by the esc key gives a state with the list title, the
list items and the `currentPath` of the state before enter, and with the cursor at 0;
the esc step does not ask to quit. -/
theorem enter_then_esc_restores (lu : ListUpdate) (m : model) (i : item)
    (hsel : m.list.SelectedItem = some i) (hbr : i.nested_component.call.title ≠ "") :
    ((m.Update lu enterKey).1.Update lu escKey).1.list.Title = m.list.Title ∧
      ((m.Update lu enterKey).1.Update lu escKey).1.list.items = m.list.items ∧
      ((m.Update lu enterKey).1.Update lu escKey).1.currentPath = m.currentPath ∧
      ((m.Update lu enterKey).1.Update lu escKey).1.list.Index = 0 ∧
      ((m.Update lu enterKey).1.Update lu escKey).2 = Cmd.nil := by
  rw [Update_enter_branch lu m i hsel hbr]
  rw [Update_esc_push lu _ m.currentPath m.listToComponent rfl]
  simp [model.listToComponent, list.Model.Items, list.Model.Index]

theorem enter_then_esc_restores_witness :
    initialModel.list.SelectedItem
        = some (SetRootItem "Introduction" "Basic Information and Contact"
            Producer.IntroComponent) ∧
      ((initialModel.Update listUpdate enterKey).1.Update listUpdate escKey).1.list.Title
        = initialModel.list.Title ∧
      ((initialModel.Update listUpdate enterKey).1.Update listUpdate escKey).1.list.Index
        = 0 :=
  ⟨rfl,
   (enter_then_esc_restores listUpdate initialModel _ rfl (by decide)).1,
   (enter_then_esc_restores listUpdate initialModel _ rfl (by decide)).2.2.2.1⟩

/-- C6. With an empty `currentPath`, `Update` with the esc key returns the quit command
and a state with the same `currentPath`, list title, list items and cursor.  `Update` is
a total function, so there is no failing case. -/
theorem esc_at_root_quits (lu : ListUpdate) (m : model) (hpath : m.currentPath = []) :
    (m.Update lu escKey).2 = Cmd.Quit ∧
      (m.Update lu escKey).1.currentPath = m.currentPath ∧
      (m.Update lu escKey).1.list.Title = m.list.Title ∧
      (m.Update lu escKey).1.list.items = m.list.items ∧
      (m.Update lu escKey).1.list.Index = m.list.Index := by
  rw [Update_esc_nil lu m hpath]
  simp

theorem esc_at_root_quits_witness :
    initialModel.currentPath = [] ∧
      (initialModel.Update listUpdate escKey).2 = Cmd.Quit ∧
      (initialModel.Update listUpdate escKey).1.list.Title = initialModel.list.Title :=
  ⟨rfl, (esc_at_root_quits listUpdate initialModel rfl).1,
    (esc_at_root_quits listUpdate initialModel rfl).2.2.1⟩

/-! ## The detail flag -/

/-- C3. For every state and every event, `large_desc` is true after `Update` exactly
when the event is the enter key, an item is selected, it is a leaf, and the byte length
of its description exceeds the list width minus 4.  The value of `large_desc` before
the event plays no part, so after every other event it is false. -/
theorem large_desc_iff (lu : ListUpdate) (m : model) (msg : Msg) :
    (m.Update lu msg).1.large_desc = true ↔
      msg = enterKey ∧ ∃ i, m.list.SelectedItem = some i ∧
        i.nested_component.call.title = "" ∧
        (i.desc.utf8ByteSize : Int) > m.list.Width - 4 := by
  cases msg with
  | WindowSizeMsg w h => simp [Update_WindowSizeMsg]
  | other tag => simp [Update_other]
  | KeyMsg value =>
    by_cases h1 : value = "ctrl+c"
    · subst h1; simp [Update_ctrl_c]
    by_cases h3 : value = "esc"
    · subst h3
      have hne : ¬ (Msg.KeyMsg "esc" = enterKey) := by decide
      rcases List.eq_nil_or_concat m.currentPath with hp | ⟨path, prev, hp⟩
      · simp [Update_esc_nil lu m hp, hne]
      · rw [List.concat_eq_append] at hp
        simp [Update_esc_push lu m path prev hp, hne]
    by_cases h2 : value = "enter"
    · subst h2
      cases hsel : m.list.SelectedItem with
      | none => simp [Update_enter_none lu m hsel]
      | some i =>
        by_cases hbr : i.nested_component.call.title = ""
        · by_cases hlong : (i.desc.utf8ByteSize : Int) > m.list.Width - 4
          · simp [Update_enter_leaf_long lu m i hsel hbr hlong, hbr, hlong]
          · have hshort := not_lt.mp hlong
            simp [Update_enter_leaf_short lu m i hsel hbr hshort, hbr, hlong]
        · simp [Update_enter_branch lu m i hsel hbr, hbr]
    · simp [Update_other_key lu m value h1 h2 h3, h2]

/-! ## Enter on a leaf -/

/-- C8. When the selected item is a leaf, `Update` with the enter key leaves
`currentPath`, the list title and the list items unchanged; and when the byte length of
the description is at most the width minus 4, the state returned is the state before
with `large_desc` false (so it is the state before whenever `large_desc` was false),
the cursor is unchanged and the command is `nil`, not quit.  The short-description path
hands the key to the list widget: `hlib` says that the widget has no binding for enter. -/
theorem enter_leaf_frame (lu : ListUpdate) (m : model) (i : item)
    (hsel : m.list.SelectedItem = some i) (hleaf : i.nested_component.call.title = "")
    (hlib : lu m.list enterKey = (m.list, Cmd.nil)) :
    (m.Update lu enterKey).1.currentPath = m.currentPath ∧
      (m.Update lu enterKey).1.list.Title = m.list.Title ∧
      (m.Update lu enterKey).1.list.items = m.list.items ∧
      ((i.desc.utf8ByteSize : Int) ≤ m.list.Width - 4 →
        (m.Update lu enterKey).1 = { m with large_desc := false } ∧
        (m.large_desc = false → (m.Update lu enterKey).1 = m) ∧
        (m.Update lu enterKey).1.large_desc = false ∧
        (m.Update lu enterKey).1.list.Index = m.list.Index ∧
        (m.Update lu enterKey).2 = Cmd.nil ∧ (m.Update lu enterKey).2 ≠ Cmd.Quit) := by
  by_cases hlong : (i.desc.utf8ByteSize : Int) > m.list.Width - 4
  · rw [Update_enter_leaf_long lu m i hsel hleaf hlong]
    refine ⟨rfl, rfl, rfl, fun hshort => absurd hlong (not_lt.mpr hshort)⟩
  · have hshort := not_lt.mp hlong
    rw [Update_enter_leaf_short lu m i hsel hleaf hshort, hlib]
    refine ⟨rfl, rfl, rfl, fun _ => ⟨rfl, ?_, rfl, rfl, rfl, by simp⟩⟩
    intro hld
    cases m
    simp_all

theorem enter_leaf_frame_witness :
    linkedInState.list.SelectedItem
        = some (SetLeafItem "LinkedIn" "linkedin.com/in/bhuwan-panta"
            Producer.initialComponent) ∧
      (("linkedin.com/in/bhuwan-panta".utf8ByteSize : Int) ≤ linkedInState.list.Width - 4) ∧
      (linkedInState.Update listUpdate enterKey).1 = linkedInState :=
  ⟨rfl, by decide,
   ((enter_leaf_frame listUpdate linkedInState _ rfl rfl rfl).2.2.2 (by decide)).2.1 rfl⟩

/-! ## Length of the path -/

theorem branchSelected_eq_true (m : model) :
    m.branchSelected = true ↔
      ∃ i, m.list.SelectedItem = some i ∧ i.nested_component.call.title ≠ "" := by
  unfold model.branchSelected
  cases h : m.list.SelectedItem <;> simp

/-- One step of `Update` changes the length of the path by the two indicators. -/
theorem Update_path_length (lu : ListUpdate) (m : model) (msg : Msg) :
    (m.Update lu msg).1.currentPath.length
        + (if msg = Msg.KeyMsg "esc" ∧ m.currentPath ≠ [] then 1 else 0)
      = m.currentPath.length
        + (if msg = Msg.KeyMsg "enter" ∧ m.branchSelected = true then 1 else 0) := by
  cases msg with
  | WindowSizeMsg w h => simp [Update_WindowSizeMsg]
  | other tag => simp [Update_other]
  | KeyMsg value =>
    by_cases h1 : value = "ctrl+c"
    · subst h1; simp [Update_ctrl_c]
    by_cases h3 : value = "esc"
    · subst h3
      rcases List.eq_nil_or_concat m.currentPath with hp | ⟨path, prev, hp⟩
      · simp [Update_esc_nil lu m hp, hp]
      · rw [List.concat_eq_append] at hp
        simp [Update_esc_push lu m path prev hp, hp]
    by_cases h2 : value = "enter"
    · subst h2
      cases hsel : m.list.SelectedItem with
      | none =>
        have hb : ¬ (m.branchSelected = true) := by
          simp [branchSelected_eq_true, hsel]
        simp [Update_enter_none lu m hsel, hb]
      | some i =>
        by_cases hbr : i.nested_component.call.title = ""
        · have hb : ¬ (m.branchSelected = true) := by
            simp [branchSelected_eq_true, hsel, hbr]
          by_cases hlong : (i.desc.utf8ByteSize : Int) > m.list.Width - 4
          · simp [Update_enter_leaf_long lu m i hsel hbr hlong, hb]
          · have hshort := not_lt.mp hlong
            simp [Update_enter_leaf_short lu m i hsel hbr hshort, hb]
        · have hb : m.branchSelected = true := by
            simp [branchSelected_eq_true, hsel, hbr]
          simp [Update_enter_branch lu m i hsel hbr, hb]
    · simp [Update_other_key lu m value h1 h2 h3, h2, h3]

/-- From any state: final length plus pops equals initial length plus pushes. -/
theorem run_path_length (lu : ListUpdate) (evs : List Msg) :
    ∀ m : model, (run lu m evs).currentPath.length + backCount lu m evs
      = m.currentPath.length + enterCount lu m evs := by
  induction evs with
  | nil => intro m; simp [run, backCount, enterCount]
  | cons msg rest ih =>
    intro m
    have hstep := Update_path_length lu m msg
    have hrest := ih (m.Update lu msg).1
    simp only [run, backCount, enterCount]
    omega

/-- C4. For every finite sequence of events applied by `Update` from the initial model,
the length of `currentPath` is the number of enter events applied with a branch
selected minus the number of esc events applied with a non-empty `currentPath`, and at
every prefix of the sequence the second number is at most the first. -/
theorem path_length_eq_enters_minus_backs (lu : ListUpdate) (evs : List Msg) :
    ((run lu initialModel evs).currentPath.length : Int)
        = (enterCount lu initialModel evs : Int) - (backCount lu initialModel evs : Int) ∧
      ∀ k : Nat, backCount lu initialModel (evs.take k)
        ≤ enterCount lu initialModel (evs.take k) := by
  have hinit : initialModel.currentPath.length = 0 := rfl
  refine ⟨?_, fun k => ?_⟩
  · have h := run_path_length lu evs initialModel
    omega
  · have h := run_path_length lu (evs.take k) initialModel
    omega

/-! ## The root is shown exactly when the path is empty -/

set_option maxRecDepth 100000 in
theorem root_not_mem_nonRootComponents : initialComponent ∉ nonRootComponents := by
  decide

set_option maxRecDepth 100000 in
theorem nonRoot_title_ne :
    ∀ c ∈ nonRootComponents, c.title ≠ initialComponent.title := by
  decide

set_option maxRecDepth 100000 in
/-- Every branch found in a component of the content leads to a non-root component. -/
theorem nested_mem_nonRootComponents :
    ∀ c ∈ initialComponent :: nonRootComponents, ∀ i ∈ c.list_items,
      i.nested_component.call.title ≠ "" →
        i.nested_component.call ∈ nonRootComponents := by
  decide

theorem NavInv_congr (m m2 : model) (hp : m2.currentPath = m.currentPath)
    (hc : m2.listToComponent = m.listToComponent) (h : NavInv m) : NavInv m2 := by
  unfold NavInv at *
  rw [hp, hc]
  exact h

theorem NavInv_initialModel : NavInv initialModel := Or.inl ⟨rfl, rfl⟩

/-- The current component of a state satisfying the invariant is part of the content. -/
theorem NavInv_current_mem {m : model} (h : NavInv m) :
    m.listToComponent ∈ initialComponent :: nonRootComponents := by
  rcases h with ⟨_, hc⟩ | ⟨_, _, _, hc⟩
  · rw [hc]; exact List.mem_cons_self _ _
  · exact List.mem_cons_of_mem _ hc

theorem NavInv_enter_branch (lu : ListUpdate) (m : model) (i : item)
    (hsel : m.list.SelectedItem = some i) (hbr : i.nested_component.call.title ≠ "")
    (h : NavInv m) : NavInv (m.Update lu enterKey).1 := by
  have hi : i ∈ m.listToComponent.list_items := List.get?_mem hsel
  have hnext := nested_mem_nonRootComponents _ (NavInv_current_mem h) i hi hbr
  rw [Update_enter_branch lu m i hsel hbr]
  refine Or.inr ?_
  rcases h with ⟨hp, hc⟩ | ⟨rest, hp, hrest, hc⟩
  · refine ⟨[], ?_, ?_, hnext⟩
    · simp [hp, hc]
    · intro c hcmem; cases hcmem
  · refine ⟨rest ++ [m.listToComponent], ?_, ?_, hnext⟩
    · simp [hp]
    · intro c hcmem
      rcases List.mem_append.mp hcmem with hc1 | hc1
      · exact hrest c hc1
      · rw [List.mem_singleton.mp hc1]; exact hc

theorem NavInv_esc_push (lu : ListUpdate) (m : model) (path : List component)
    (prev : component) (hpath : m.currentPath = path ++ [prev]) (h : NavInv m) :
    NavInv (m.Update lu escKey).1 := by
  rw [Update_esc_push lu m path prev hpath]
  rcases h with ⟨hp, _⟩ | ⟨rest, hp, hrest, _⟩
  · rw [hp] at hpath
    exact absurd hpath.symm (by simp)
  · rw [hpath] at hp
    cases path with
    | nil =>
      left
      simp only [List.nil_append, List.cons.injEq] at hp
      refine ⟨rfl, ?_⟩
      rw [← hp.1]
      rfl
    | cons c0 path2 =>
      right
      simp only [List.cons_append, List.cons.injEq] at hp
      refine ⟨path2, by rw [hp.1], ?_, ?_⟩
      · intro c hcmem
        exact hrest c (by rw [← hp.2]; exact List.mem_append_left _ hcmem)
      · exact hrest prev (by rw [← hp.2]; simp)

/-- The invariant is kept by every step, provided the list widget's own `Update`
does not replace the items or the title. -/
theorem NavInv_Update (lu : ListUpdate)
    (hlu : ∀ l msg, (lu l msg).1.items = l.items ∧ (lu l msg).1.Title = l.Title)
    (m : model) (msg : Msg) (h : NavInv m) : NavInv (m.Update lu msg).1 := by
  have hfw : ∀ msg2 : Msg, NavInv
      ({ m with large_desc := false, list := (lu m.list msg2).1 } : model) := by
    intro msg2
    refine NavInv_congr m _ rfl ?_ h
    simp [model.listToComponent, list.Model.Items, hlu m.list msg2]
  cases msg with
  | WindowSizeMsg w h2 =>
    rw [Update_WindowSizeMsg]
    refine NavInv_congr m _ rfl ?_ h
    have hl := hlu (m.list.SetSize w h2) (Msg.WindowSizeMsg w h2)
    simp only [model.listToComponent, list.Model.Items, hl.1, hl.2]
    rfl
  | other tag => rw [Update_other]; exact hfw _
  | KeyMsg value =>
    by_cases h1 : value = "ctrl+c"
    · subst h1; rw [Update_ctrl_c]; exact NavInv_congr m _ rfl rfl h
    by_cases h3 : value = "esc"
    · subst h3
      rcases List.eq_nil_or_concat m.currentPath with hp | ⟨path, prev, hp⟩
      · rw [Update_esc_nil lu m hp]; exact NavInv_congr m _ rfl rfl h
      · rw [List.concat_eq_append] at hp
        exact NavInv_esc_push lu m path prev hp h
    by_cases h2 : value = "enter"
    · subst h2
      cases hsel : m.list.SelectedItem with
      | none => rw [Update_enter_none lu m hsel]; exact NavInv_congr m _ rfl rfl h
      | some i =>
        by_cases hbr : i.nested_component.call.title = ""
        · by_cases hlong : (i.desc.utf8ByteSize : Int) > m.list.Width - 4
          · rw [Update_enter_leaf_long lu m i hsel hbr hlong]
            exact NavInv_congr m _ rfl rfl h
          · rw [Update_enter_leaf_short lu m i hsel hbr (not_lt.mp hlong)]
            exact hfw _
        · exact NavInv_enter_branch lu m i hsel hbr h
    · rw [Update_other_key lu m value h1 h2 h3]; exact hfw _

theorem NavInv_run (lu : ListUpdate)
    (hlu : ∀ l msg, (lu l msg).1.items = l.items ∧ (lu l msg).1.Title = l.Title)
    (evs : List Msg) : ∀ m : model, NavInv m → NavInv (run lu m evs) := by
  induction evs with
  | nil => intro m h; exact h
  | cons msg rest ih => intro m h; exact ih _ (NavInv_Update lu hlu m msg h)

/-- The spec-modelled widget update keeps the items and the title. -/
theorem listUpdate_frame (l : list.Model) (msg : Msg) :
    (listUpdate l msg).1.items = l.items ∧ (listUpdate l msg).1.Title = l.Title := by
  unfold listUpdate
  split_ifs <;> simp

/-- C5. In every state reached from the initial model by a sequence of events,
`currentPath` is empty if and only if the current component (list items and list
title) is the root component `initialComponent()`; the title alone already tells the
root apart.  The list widget's own `Update`, which is not part of the program, is
assumed not to replace the items or the title. -/
theorem path_empty_iff_root (lu : ListUpdate)
    (hlu : ∀ l msg, (lu l msg).1.items = l.items ∧ (lu l msg).1.Title = l.Title)
    (evs : List Msg) :
    ((run lu initialModel evs).currentPath = [] ↔
        (run lu initialModel evs).listToComponent = initialComponent) ∧
      ((run lu initialModel evs).list.Title = initialComponent.title →
        (run lu initialModel evs).currentPath = []) := by
  rcases NavInv_run lu hlu evs initialModel NavInv_initialModel with
    ⟨hp, hc⟩ | ⟨rest, hp, _, hc⟩
  · simp [hp, hc]
  · refine ⟨⟨?_, ?_⟩, ?_⟩
    · intro h0; rw [hp] at h0; cases h0
    · intro hroot
      rw [hroot] at hc
      exact absurd hc root_not_mem_nonRootComponents
    · intro htitle
      exact absurd htitle (nonRoot_title_ne _ hc)

theorem path_empty_iff_root_witness :
    (∀ l msg, (listUpdate l msg).1.items = l.items ∧
        (listUpdate l msg).1.Title = l.Title) ∧
      ((run listUpdate initialModel
          [Msg.KeyMsg "down", Msg.KeyMsg "enter", Msg.KeyMsg "esc"]).currentPath = [] ↔
        (run listUpdate initialModel
          [Msg.KeyMsg "down", Msg.KeyMsg "enter", Msg.KeyMsg "esc"]).listToComponent
          = initialComponent) :=
  ⟨listUpdate_frame, (path_empty_iff_root listUpdate listUpdate_frame _).1⟩

/-! ## The empty-title sentinel on the content -/

set_option maxRecDepth 100000 in
theorem allComponents_closed :
    ∀ c ∈ allComponents, ∀ i ∈ c.list_items, i.nested_component.call ∈ allComponents := by
  decide

set_option maxRecDepth 100000 in
/-- Shape of the items of the content: each was built by one of the two constructors,
and the producer of an item with placeholder `prev_component` returns a titled,
non-empty component. -/
theorem allComponents_items :
    ∀ c ∈ allComponents, ∀ i ∈ c.list_items,
      (i.nested_component = Producer.placeholder ∨ i.prev_component = Producer.placeholder) ∧
      (i.prev_component = Producer.placeholder →
        i.nested_component.call.title ≠ "" ∧ i.nested_component.call.list_items ≠ []) := by
  decide

theorem ReachableComponent_mem {c : component} (h : ReachableComponent c) :
    c ∈ allComponents := by
  induction h with
  | root => simp [allComponents]
  | nested c i _ hi ih => exact allComponents_closed c ih i hi

/-- C9. In every component reachable from `initialComponent()` through
`nested_component` producers, each item was built by `SetLeafItem` or by `SetRootItem`;
the test of `Update` (`nested_component().title != ""`) is false on the items built by
`SetLeafItem` and true on those built by `SetRootItem`; and the producer given to a
`SetRootItem` returns a component with a non-empty title and at least one item. -/
theorem sentinel_classifies_content (c : component) (hc : ReachableComponent c)
    (i : item) (hi : i ∈ c.list_items) :
    ((∃ n d p, i = SetLeafItem n d p) ∨ (∃ n d nc, i = SetRootItem n d nc)) ∧
      (∀ n d p, i = SetLeafItem n d p → ¬ (i.nested_component.call.title ≠ "")) ∧
      (∀ n d nc, i = SetRootItem n d nc →
        i.nested_component.call.title ≠ "" ∧
        nc.call.title ≠ "" ∧ nc.call.list_items ≠ []) := by
  have hshape := allComponents_items c (ReachableComponent_mem hc) i hi
  refine ⟨?_, ?_, ?_⟩
  · rcases hshape.1 with hn | hp
    · exact Or.inl ⟨i.name, i.desc, i.prev_component, by
        cases i; simp_all [SetLeafItem]⟩
    · exact Or.inr ⟨i.name, i.desc, i.nested_component, by
        cases i; simp_all [SetRootItem]⟩
  · intro n d p hleaf
    subst hleaf
    simp [SetLeafItem, Producer.call]
  · intro n d nc hroot
    have h2 := hshape.2 (by rw [hroot]; rfl)
    have hnc : i.nested_component = nc := by rw [hroot]; rfl
    refine ⟨h2.1, ?_, ?_⟩
    · rw [← hnc]; exact h2.1
    · rw [← hnc]; exact h2.2

theorem sentinel_classifies_content_witness :
    ReachableComponent ExperienceComponent ∧
      SetRootItem "Software Engineer, Tekvortex" "Bhaktapur, Nepal | Jan 2021 – Jan 2022"
          (Producer.TekvortexExperience Producer.ExperienceComponent)
        ∈ ExperienceComponent.list_items ∧
      (Producer.TekvortexExperience Producer.ExperienceComponent).call.title ≠ "" :=
  have hr : ReachableComponent ExperienceComponent :=
    ReachableComponent.nested initialComponent
      (SetRootItem "Experience" "Details of Professional Experience"
        Producer.ExperienceComponent)
      ReachableComponent.root (by simp [initialComponent])
  have hm : SetRootItem "Software Engineer, Tekvortex"
      "Bhaktapur, Nepal | Jan 2021 – Jan 2022"
      (Producer.TekvortexExperience Producer.ExperienceComponent)
      ∈ ExperienceComponent.list_items := by simp [ExperienceComponent]
  ⟨hr, hm, ((sentinel_classifies_content ExperienceComponent hr _ hm).2.2 _ _ _ rfl).2.1⟩

/-! ## The cycle through "MITM Proxy" -/

theorem run_append (lu : ListUpdate) (a b : List Msg) :
    ∀ m : model, run lu m (a ++ b) = run lu (run lu m a) b := by
  induction a with
  | nil => intro m; rfl
  | cons msg rest ih => intro m; exact ih _

/-- In the cycle, enter pushes one component and stays in the cycle. -/
theorem inCycle_enter (lu : ListUpdate) (m : model) (h : inCycle m) :
    inCycle (m.Update lu enterKey).1 ∧
      (m.Update lu enterKey).1.currentPath.length = m.currentPath.length + 1 := by
  obtain ⟨hidx, hitems | hitems⟩ := h
  · have hsel : m.list.SelectedItem = some (SetRootItem "Software Engineer, Tekvortex"
        "Bhaktapur, Nepal | Jan 2021 – Jan 2022"
        (Producer.TekvortexExperience Producer.ExperienceComponent)) := by
      simp [list.Model.SelectedItem, hidx, hitems, ExperienceComponent]
    rw [Update_enter_branch lu m _ hsel (by decide)]
    exact ⟨⟨rfl, Or.inr rfl⟩, by simp⟩
  · have hsel : m.list.SelectedItem = some (SetRootItem "MITM Proxy"
        "Working on BAF(Build Application Firewall) Product"
        Producer.ExperienceComponent) := by
      simp [list.Model.SelectedItem, hidx, hitems, TekvortexExperienceComponent]
    rw [Update_enter_branch lu m _ hsel (by decide)]
    exact ⟨⟨rfl, Or.inl rfl⟩, by simp⟩

theorem inCycle_run (lu : ListUpdate) (k : Nat) :
    ∀ m : model, inCycle m →
      (run lu m (List.replicate k enterKey)).currentPath.length
        = m.currentPath.length + k := by
  induction k with
  | zero => intro m _; rfl
  | succ k ih =>
    intro m h
    have hstep := inCycle_enter lu m h
    have hrest := ih _ hstep.1
    simp only [List.replicate_succ, run]
    omega

/-- Two presses of the down key from the initial model put the cursor on the third
row, when the list widget moves the cursor down on that key. -/
theorem run_down_down (lu : ListUpdate)
    (hdown : ∀ l : list.Model, l.index + 1 < l.items.length →
      (lu l (Msg.KeyMsg "down")).1 = { l with index := l.index + 1 }) :
    run lu initialModel [Msg.KeyMsg "down", Msg.KeyMsg "down"]
      = { initialModel with list := { initialModel.list with index := 2 } } := by
  have hne1 : ("down" : String) ≠ "ctrl+c" := by decide
  have hne2 : ("down" : String) ≠ "enter" := by decide
  have hne3 : ("down" : String) ≠ "esc" := by decide
  have s1 : (initialModel.Update lu (Msg.KeyMsg "down")).1
      = { initialModel with list := { initialModel.list with index := 1 } } := by
    rw [Update_other_key lu _ "down" hne1 hne2 hne3, hdown initialModel.list (by decide)]
    rfl
  have s2 : (({ initialModel with list := { initialModel.list with index := 1 } } :
      model).Update lu (Msg.KeyMsg "down")).1
      = { initialModel with list := { initialModel.list with index := 2 } } := by
    rw [Update_other_key lu _ "down" hne1 hne2 hne3]
    show ({ list := (lu { initialModel.list with index := 1 } (Msg.KeyMsg "down")).1,
            currentPath := initialModel.currentPath, large_desc := false } : model) = _
    rw [hdown { initialModel.list with index := 1 } (by decide)]
    rfl
  show run lu (initialModel.Update lu (Msg.KeyMsg "down")).1 [Msg.KeyMsg "down"] = _
  rw [s1]
  show (({ initialModel with list := { initialModel.list with index := 1 } } :
      model).Update lu (Msg.KeyMsg "down")).1 = _
  rw [s2]

/-- C10. The navigation graph has a cycle.  The only item of
"Tekvortex - Software Engineer" is "MITM Proxy", a branch whose producer is
`ExperienceComponent`.  From the initial model, with the cursor moved to "Experience"
by two down keys, three enter keys select in turn "Experience",
"Software Engineer, Tekvortex" and "MITM Proxy" and reach a state whose title is
"Experience" and whose `currentPath` has length 3.  Hence for every `n` some event
sequence from the initial model reaches a `currentPath` longer than `n`.  The list
widget is assumed to move the cursor one row down on the down key. -/
theorem mitm_proxy_cycle (lu : ListUpdate)
    (hdown : ∀ l : list.Model, l.index + 1 < l.items.length →
      (lu l (Msg.KeyMsg "down")).1 = { l with index := l.index + 1 }) :
    (TekvortexExperienceComponent Producer.ExperienceComponent).title
        = "Tekvortex - Software Engineer" ∧
      (TekvortexExperienceComponent Producer.ExperienceComponent).list_items
        = [SetRootItem "MITM Proxy" "Working on BAF(Build Application Firewall) Product"
            Producer.ExperienceComponent] ∧
      Producer.ExperienceComponent.call = ExperienceComponent ∧
      Producer.ExperienceComponent.call.title ≠ "" ∧
      (run lu initialModel [Msg.KeyMsg "down", Msg.KeyMsg "down"]).list.SelectedItem
        = some (SetRootItem "Experience" "Details of Professional Experience"
            Producer.ExperienceComponent) ∧
      (run lu initialModel
          [Msg.KeyMsg "down", Msg.KeyMsg "down", enterKey]).list.SelectedItem
        = some (SetRootItem "Software Engineer, Tekvortex"
            "Bhaktapur, Nepal | Jan 2021 – Jan 2022"
            (Producer.TekvortexExperience Producer.ExperienceComponent)) ∧
      (run lu initialModel
          [Msg.KeyMsg "down", Msg.KeyMsg "down", enterKey, enterKey]).list.SelectedItem
        = some (SetRootItem "MITM Proxy"
            "Working on BAF(Build Application Firewall) Product"
            Producer.ExperienceComponent) ∧
      (run lu initialModel
          [Msg.KeyMsg "down", Msg.KeyMsg "down", enterKey, enterKey, enterKey]).list.Title
        = "Experience" ∧
      (run lu initialModel
          [Msg.KeyMsg "down", Msg.KeyMsg "down", enterKey, enterKey,
            enterKey]).currentPath.length = 3 ∧
      ∀ n : Nat, ∃ evs : List Msg, n < (run lu initialModel evs).currentPath.length := by
  have h0 := run_down_down lu hdown
  have hsel0 : (run lu initialModel [Msg.KeyMsg "down", Msg.KeyMsg "down"]).list.SelectedItem
      = some (SetRootItem "Experience" "Details of Professional Experience"
          Producer.ExperienceComponent) := by rw [h0]; rfl
  have hbr : ∀ nc : Producer, nc.call.title ≠ "" →
      ∀ n d, (SetRootItem n d nc).nested_component.call.title ≠ "" := fun _ h _ _ => h
  -- first enter
  have h1 : run lu initialModel [Msg.KeyMsg "down", Msg.KeyMsg "down", enterKey]
      = ((run lu initialModel [Msg.KeyMsg "down", Msg.KeyMsg "down"]).Update lu
          enterKey).1 := run_append lu [Msg.KeyMsg "down", Msg.KeyMsg "down"] [enterKey] _
  have e1 := Update_enter_branch lu _ _ hsel0 (hbr _ (by decide) _ _)
  have hsel1 : (run lu initialModel
      [Msg.KeyMsg "down", Msg.KeyMsg "down", enterKey]).list.SelectedItem
      = some (SetRootItem "Software Engineer, Tekvortex"
          "Bhaktapur, Nepal | Jan 2021 – Jan 2022"
          (Producer.TekvortexExperience Producer.ExperienceComponent)) := by
    rw [h1, e1]; rfl
  have hlen1 : (run lu initialModel
      [Msg.KeyMsg "down", Msg.KeyMsg "down", enterKey]).currentPath.length = 1 := by
    rw [h1, e1, h0]; rfl
  -- second enter
  have h2 : run lu initialModel [Msg.KeyMsg "down", Msg.KeyMsg "down", enterKey, enterKey]
      = ((run lu initialModel [Msg.KeyMsg "down", Msg.KeyMsg "down", enterKey]).Update lu
          enterKey).1 :=
    run_append lu [Msg.KeyMsg "down", Msg.KeyMsg "down", enterKey] [enterKey] _
  have e2 := Update_enter_branch lu _ _ hsel1 (hbr _ (by decide) _ _)
  have hsel2 : (run lu initialModel
      [Msg.KeyMsg "down", Msg.KeyMsg "down", enterKey, enterKey]).list.SelectedItem
      = some (SetRootItem "MITM Proxy"
          "Working on BAF(Build Application Firewall) Product"
          Producer.ExperienceComponent) := by
    rw [h2, e2]; rfl
  -- third enter
  have h3 : run lu initialModel
      [Msg.KeyMsg "down", Msg.KeyMsg "down", enterKey, enterKey, enterKey]
      = ((run lu initialModel
          [Msg.KeyMsg "down", Msg.KeyMsg "down", enterKey, enterKey]).Update lu
          enterKey).1 :=
    run_append lu [Msg.KeyMsg "down", Msg.KeyMsg "down", enterKey, enterKey] [enterKey] _
  have e3 := Update_enter_branch lu _ _ hsel2 (hbr _ (by decide) _ _)
  have hcyc1 : inCycle (run lu initialModel
      [Msg.KeyMsg "down", Msg.KeyMsg "down", enterKey]) := by
    rw [h1, e1]; exact ⟨rfl, Or.inl rfl⟩
  refine ⟨rfl, rfl, rfl, by decide, hsel0, hsel1, hsel2, ?_, ?_, ?_⟩
  · rw [h3, e3]; rfl
  · have hk := inCycle_run lu 2 _ hcyc1
    rw [← run_append] at hk
    rw [hlen1] at hk
    exact hk
  · intro n
    refine ⟨[Msg.KeyMsg "down", Msg.KeyMsg "down", enterKey] ++ List.replicate n enterKey, ?_⟩
    rw [run_append, inCycle_run lu n _ hcyc1, hlen1]
    omega

/-- The spec-modelled widget update moves the cursor down on the down key. -/
theorem listUpdate_down (l : list.Model) (h : l.index + 1 < l.items.length) :
    (listUpdate l (Msg.KeyMsg "down")).1 = { l with index := l.index + 1 } := by
  simp [listUpdate, h]

theorem mitm_proxy_cycle_witness :
    (∀ l : list.Model, l.index + 1 < l.items.length →
        (listUpdate l (Msg.KeyMsg "down")).1 = { l with index := l.index + 1 }) ∧
      (run listUpdate initialModel
          [Msg.KeyMsg "down", Msg.KeyMsg "down", enterKey, enterKey, enterKey]).list.Title
        = "Experience" ∧
      (run listUpdate initialModel
          [Msg.KeyMsg "down", Msg.KeyMsg "down", enterKey, enterKey,
            enterKey]).currentPath.length = 3 :=
  ⟨listUpdate_down, (mitm_proxy_cycle listUpdate listUpdate_down).2.2.2.2.2.2.2.1,
    (mitm_proxy_cycle listUpdate listUpdate_down).2.2.2.2.2.2.2.2.1⟩

/-! ## The detail view of "Contact" -/

/-- C7, as stated, fails.  With a list 80 columns wide the Contact description (82
bytes) exceeds the width minus 4; after enter, the esc key gives the list of the root
component, not of "Introduction", and a second enter keeps the detail flag set.  With
the spec-modelled list widget the down key moves the cursor to row 1, not 0. -/
theorem contact_detail_esc_shows_root :
    (contactItem.desc.utf8ByteSize : Int) > (introState 80 24).list.Width - 4 ∧
      ((introState 80 24).Update listUpdate enterKey).1.large_desc = true ∧
      ((((introState 80 24).Update listUpdate enterKey).1.Update listUpdate
          escKey).1.list.Title = "Bhuwan Panta\x27s CV") ∧
      ¬ ((((introState 80 24).Update listUpdate enterKey).1.Update listUpdate
          escKey).1.list.Title = "Introduction") ∧
      ((((introState 80 24).Update listUpdate enterKey).1.Update listUpdate
          enterKey).1.large_desc = true) ∧
      ((((introState 80 24).Update listUpdate enterKey).1.Update listUpdate
          (Msg.KeyMsg "down")).1.list.Index = 1) := by
  decide

/-- C7, amended.  From the state showing "Introduction" (reached from the root by
enter on "Introduction") with the cursor on the leaf "Contact", for every width such
that the byte length of the Contact description exceeds the width minus 4: enter sets
`large_desc`, changes nothing else, and the next `View` is the detail view made of the
title "Contact" and the full description; then esc pops to the list of the root
component with an empty `currentPath`, cursor 0 and `large_desc` false; ctrl+c leaves
the list of "Introduction" with cursor 0 and `large_desc` false and asks to quit; every
key other than enter, esc and ctrl+c clears `large_desc`, keeps `currentPath` and hands
the list to the list widget, so that the next `View` is a list view; a second enter
shows the detail view again. -/
theorem contact_detail_then_keys (lu : ListUpdate) (r : Renderer) (w h : Int)
    (hlong : (contactItem.desc.utf8ByteSize : Int) > w - 4) :
    ({ initialModel with list := initialModel.list.SetSize w h } : model).Update lu enterKey
        = (introState w h, Cmd.nil) ∧
      (introState w h).list.SelectedItem = some contactItem ∧
      (introState w h).Update lu enterKey = (contactDetailState w h, Cmd.nil) ∧
      (contactDetailState w h).View r
        = some (r.docStyle (r.titleStyle "Contact" ++ "\n\n"
            ++ r.descStyle (w - 4) contactItem.desc
            ++ "\n\n↑/k up • ↓/j down • q quit")) ∧
      (contactDetailState w h).Update lu escKey = (rootState w h, Cmd.nil) ∧
      (contactDetailState w h).Update lu (Msg.KeyMsg "ctrl+c")
        = (introState w h, Cmd.Quit) ∧
      (∀ value : String, value ≠ "enter" → value ≠ "esc" → value ≠ "ctrl+c" →
        (contactDetailState w h).Update lu (Msg.KeyMsg value)
          = ({ introState w h with
                list := (lu (introState w h).list (Msg.KeyMsg value)).1 },
              (lu (introState w h).list (Msg.KeyMsg value)).2) ∧
        ((contactDetailState w h).Update lu (Msg.KeyMsg value)).1.View r
          = some (r.docStyle (r.listView
              (lu (introState w h).list (Msg.KeyMsg value)).1))) ∧
      (contactDetailState w h).Update lu enterKey = (contactDetailState w h, Cmd.nil) := by
  have hsel : (introState w h).list.SelectedItem = some contactItem := rfl
  have hsel2 : (contactDetailState w h).list.SelectedItem = some contactItem := rfl
  have hleaf : contactItem.nested_component.call.title = "" := rfl
  refine ⟨?_, hsel, ?_, ?_, ?_, ?_, ?_, ?_⟩
  · rw [Update_enter_branch lu
      ({ initialModel with list := initialModel.list.SetSize w h } : model)
      (SetRootItem "Introduction" "Basic Information and Contact"
        Producer.IntroComponent) rfl (by decide)]
    rfl
  · rw [Update_enter_leaf_long lu _ contactItem hsel hleaf hlong]
    rfl
  · simp [model.View, model.LongDescView, contactDetailState, introState,
      list.Model.SelectedItem, list.Model.Width, IntroComponent, item.Title,
      item.Description, contactItem, SetLeafItem]
  · rw [Update_esc_push lu (contactDetailState w h) [] initialComponent rfl]
    rfl
  · rw [Update_ctrl_c]
    rfl
  · intro value h2 h3 h1
    rw [Update_other_key lu _ value h1 h2 h3]
    exact ⟨rfl, rfl⟩
  · rw [Update_enter_leaf_long lu _ contactItem hsel2 hleaf hlong]
    rfl

theorem contact_detail_then_keys_witness :
    ((contactItem.desc.utf8ByteSize : Int) > 80 - 4) ∧
      (contactDetailState 80 24).Update listUpdate escKey = (rootState 80 24, Cmd.nil) ∧
      (introState 80 24).Update listUpdate enterKey
        = (contactDetailState 80 24, Cmd.nil) :=
  ⟨by decide,
   (contact_detail_then_keys listUpdate
      { docStyle := id, titleStyle := id, descStyle := fun _ t => t,
        listView := fun l => l.Title } 80 24 (by decide)).2.2.2.2.1,
   (contact_detail_then_keys listUpdate
      { docStyle := id, titleStyle := id, descStyle := fun _ t => t,
        listView := fun l => l.Title } 80 24 (by decide)).2.2.1⟩

end TuiCV
